import Mathlib

/-!
Verification of the LetRecovery website's theme-resolution system
(src/官网/src/hooks/useTheme.tsx) and the media-embed lifecycle
(src/官网/src/pages/Home.tsx), as a shallow embedding in Lean 4.

The theme resolver keeps a user preference (light / dark / system),
persists it in localStorage under a fixed key, and derives a resolved
theme (light / dark) from the preference and, when the preference is
system, from the OS prefers-color-scheme media query.  The media embed
constructs an Artplayer handle on mount and destroys it on unmount,
guarded so that at most one instance is live at a time.
-/

namespace LetRecovery

/-- The TypeScript union `'light' | 'dark' | 'system'` from useTheme.tsx.
At runtime (JavaScript) these are the plain strings; the resolved theme
is typed `'light' | 'dark'` in TS, but that is erased, so we model both
the preference and the resolved theme with this three-valued type and
prove the never-system invariant rather than assume it. -/
inductive Theme where
  | light
  | dark
  | system
deriving DecidableEq, Repr

/-- The literal string persisted for the light preference. -/
def lightStr : String := "light"

/-- The literal string persisted for the dark preference. -/
def darkStr : String := "dark"

/-- The literal string persisted for the system preference. -/
def systemStr : String := "system"

/-- `const THEME_STORAGE_KEY = 'letrecovery-theme'` (useTheme.tsx line 13). -/
def THEME_STORAGE_KEY : String := "letrecovery-theme"

/-- The string a `Theme` value is at JavaScript runtime, hence the string
`localStorage.setItem` persists for it. -/
def themeToString : Theme → String
  | Theme.light => lightStr
  | Theme.dark => darkStr
  | Theme.system => systemStr

/-- The body of the `useState` initializer (useTheme.tsx lines 17-23)
applied to the value read from storage:
`if (stored === 'light' || stored === 'dark' || stored === 'system')
return stored; return 'system'`. -/
def themeFromStored (stored : Option String) : Theme :=
  match stored with
  | some s =>
      if s = lightStr then Theme.light
      else if s = darkStr then Theme.dark
      else if s = systemStr then Theme.system
      else Theme.system
  | none => Theme.system

/-- Errors localStorage can raise (storage disabled, quota, ...).  The
source has no try/catch, so in the embedding these propagate via
`Except`. -/
inductive StorageError where
  | unavailable
deriving DecidableEq, Repr

/-- localStorage: a key-value map, plus a flag saying the storage backend
throws on access (e.g. storage disabled in a sandboxed context). -/
structure Storage where
  failing : Bool
  entries : String → Option String

/-- `localStorage.getItem(k)`: throws when storage is unavailable,
otherwise returns the stored string or null. -/
def getItem (s : Storage) (k : String) : Except StorageError (Option String) :=
  if s.failing then Except.error StorageError.unavailable
  else Except.ok (s.entries k)

/-- `localStorage.setItem(k, v)`: throws when storage is unavailable,
otherwise updates the entry. -/
def setItem (s : Storage) (k v : String) : Except StorageError Storage :=
  if s.failing then Except.error StorageError.unavailable
  else Except.ok { s with entries := fun k2 => if k2 = k then some v else s.entries k2 }

/-- The whole `useState` initializer of `ThemeProvider` (lines 16-24) in a
browser context (`window` defined): read the stored value — an exception
from `getItem` propagates, the source has no try/catch — then validate
it, defaulting to system. -/
def themeInit (s : Storage) : Except StorageError Theme :=
  match getItem s THEME_STORAGE_KEY with
  | Except.error e => Except.error e
  | Except.ok stored => Except.ok (themeFromStored stored)

/-- The React state owned by `ThemeProvider` plus the DOM effect target:
`theme`, `resolvedTheme`, and whether `document.documentElement`'s class
list contains the `dark` marker. -/
structure ProviderState where
  theme : Theme
  resolvedTheme : Theme
  rootDark : Bool
deriving DecidableEq, Repr

/-- The resolution computation inside `updateResolvedTheme`
(useTheme.tsx lines 34-38): `theme === 'system' ? (matches ? 'dark' :
'light') : theme`, with `osDark` the value of
`window.matchMedia('(prefers-color-scheme: dark)').matches`. -/
def resolveTheme (theme : Theme) (osDark : Bool) : Theme :=
  if theme = Theme.system then (if osDark then Theme.dark else Theme.light)
  else theme

/-- `updateResolvedTheme` (lines 31-47): compute the resolved theme, store
it with `setResolvedTheme`, and add/remove the root `dark` class. -/
def updateResolvedTheme (osDark : Bool) (st : ProviderState) : ProviderState :=
  let resolved := resolveTheme st.theme osDark
  { st with resolvedTheme := resolved, rootDark := decide (resolved = Theme.dark) }

/-- `handleChange` (lines 52-56), run on a media-query change
notification: recompute only when the preference is system, otherwise do
nothing at all. -/
def handleChange (osDark : Bool) (st : ProviderState) : ProviderState :=
  if st.theme = Theme.system then updateResolvedTheme osDark st else st

/-- Provider state immediately after construction: `theme` from the
initializer, `resolvedTheme` from `useState<'light'|'dark'>('light')`
(line 26) — the effect has not run yet — and no `dark` class on the
root. -/
def initState (stored : Option String) : ProviderState :=
  { theme := themeFromStored stored, resolvedTheme := Theme.light, rootDark := false }

/-- The events that drive the provider: the effect running (on mount and
after every `theme` change, dependency array `[theme]`), a call to
`setTheme` followed by the effect re-run it triggers, and an OS
color-scheme change notification.  Each carries the OS signal observed at
that moment. -/
inductive Event where
  | effectRun (osDark : Bool)
  | setPref (p : Theme) (osDark : Bool)
  | osChange (osDark : Bool)

/-- One step of the provider's event loop. -/
def step (st : ProviderState) : Event → ProviderState
  | Event.effectRun osDark => updateResolvedTheme osDark st
  | Event.setPref p osDark => updateResolvedTheme osDark { st with theme := p }
  | Event.osChange osDark => handleChange osDark st

/-- Provider states reachable from construction. -/
inductive Reachable : ProviderState → Prop where
  | init (stored : Option String) : Reachable (initState stored)
  | next (st : ProviderState) (e : Event) : Reachable st → Reachable (step st e)

/-- `setTheme` (lines 62-65): update the in-memory preference with
`setThemeState`, then persist it; the persist step can throw and the
source does not catch it, so the error is the caller's. -/
def setTheme (st : ProviderState) (stor : Storage) (newTheme : Theme) :
    ProviderState × Except StorageError Storage :=
  ({ st with theme := newTheme }, setItem stor THEME_STORAGE_KEY (themeToString newTheme))

/-- The value `ThemeProvider` publishes through the context (line 68):
the current preference and resolved theme (the `setTheme` member is the
closure modelled by `setTheme` above). -/
structure ThemeContextType where
  theme : Theme
  resolvedTheme : Theme
deriving DecidableEq, Repr

/-- The context value built from the provider's current state. -/
def contextValue (st : ProviderState) : ThemeContextType :=
  { theme := st.theme, resolvedTheme := st.resolvedTheme }

/-- The message of the error `useTheme` throws outside a provider. -/
def useThemeErrorMsg : String := "useTheme must be used within a ThemeProvider"

/-- `useTheme` (lines 74-80): `useContext` yields `undefined` outside any
`ThemeProvider`, in which case the hook throws; inside a provider it
returns the context value. -/
def useTheme (ctx : Option ThemeContextType) : Except String ThemeContextType :=
  match ctx with
  | none => Except.error useThemeErrorMsg
  | some c => Except.ok c

/-- A storage whose backend throws on every access. -/
def failingStorage : Storage := { failing := true, entries := fun _ => none }

/-- A working storage with no entry stored yet. -/
def emptyStorage : Storage := { failing := false, entries := fun _ => none }

/-- A working storage holding exactly `v` under the theme key. -/
def storageWith (v : Option String) : Storage :=
  { failing := false, entries := fun k => if k = THEME_STORAGE_KEY then v else none }

/-- A stored value that is none of the three valid literals. -/
def garbageStr : String := "midnight"

/-! Media embed (Home.tsx lines 34-77).  The component keeps
`playerRef : useRef<Artplayer | null>(null)`; the effect constructs a
player only when the container ref is set and no instance is live
(`artRef.current && !playerRef.current`), and the effect cleanup destroys
the live instance and nulls the ref.  Handles are identified by the order
of allocation (`new Artplayer` always yields a fresh object, never a
previously destroyed one); `constructed` and `destroyed` are history
ghost fields recording every handle ever built and every handle
destroyed, newest first. -/

structure PlayerSystem where
  playerRef : Option Nat
  nextId : Nat
  constructed : List Nat
  destroyed : List Nat
deriving DecidableEq, Repr

/-- State at component creation: `useRef(null)` and an empty history. -/
def initPlayer : PlayerSystem :=
  { playerRef := none, nextId := 0, constructed := [], destroyed := [] }

/-- The effect body (Home.tsx lines 38-69): construct a player only when
the container element exists and `playerRef.current` is null. -/
def mountEffect (artRefSet : Bool) (s : PlayerSystem) : PlayerSystem :=
  if artRefSet = true ∧ s.playerRef = none then
    { s with playerRef := some s.nextId,
             nextId := s.nextId + 1,
             constructed := s.nextId :: s.constructed }
  else s

/-- The effect cleanup (Home.tsx lines 71-76): if a player is live,
destroy it and null the ref. -/
def cleanup (s : PlayerSystem) : PlayerSystem :=
  match s.playerRef with
  | some hdl => { s with destroyed := hdl :: s.destroyed, playerRef := none }
  | none => s

/-- Events of the host view's lifecycle: the effect running (a mount, or
a spurious re-run) and the cleanup running (an unmount). -/
inductive PEvent where
  | mount (artRefSet : Bool)
  | unmount

/-- One lifecycle step of the host view. -/
def pstep (s : PlayerSystem) : PEvent → PlayerSystem
  | PEvent.mount a => mountEffect a s
  | PEvent.unmount => cleanup s

/-- Player states reachable from component creation. -/
inductive PReach : PlayerSystem → Prop where
  | init : PReach initPlayer
  | next (s : PlayerSystem) (e : PEvent) : PReach s → PReach (pstep s e)

/-- The lifecycle invariant: destroyed handles are stale allocations, and
every handle ever constructed is either the single live one (the newest)
or already destroyed. -/
def PInv (s : PlayerSystem) : Prop :=
  (∀ hdl ∈ s.destroyed, hdl < s.nextId) ∧
  (∀ hdl, s.playerRef = some hdl →
    s.constructed = hdl :: s.destroyed ∧ hdl ∉ s.destroyed ∧ hdl < s.nextId) ∧
  (s.playerRef = none → s.constructed = s.destroyed)

/-! Theorems. -/

/-- The resolution computation never yields system. -/
theorem resolveTheme_ne_system (t : Theme) (b : Bool) :
    resolveTheme t b ≠ Theme.system := by
  cases t <;> cases b <;> decide

/-- The resolution computation always yields light or dark. -/
theorem resolveTheme_light_or_dark (t : Theme) (b : Bool) :
    resolveTheme t b = Theme.light ∨ resolveTheme t b = Theme.dark := by
  cases t <;> cases b <;> decide

/-- Claim C1: `resolve()` computes the resolved theme from the preference
and the OS signal: a light or dark preference resolves to itself, and a
system preference resolves to dark exactly when the OS reports dark at
evaluation time, else light. -/
theorem C1_resolve_correct (st : ProviderState) (osDark : Bool) :
    (st.theme = Theme.light → (updateResolvedTheme osDark st).resolvedTheme = Theme.light) ∧
    (st.theme = Theme.dark → (updateResolvedTheme osDark st).resolvedTheme = Theme.dark) ∧
    (st.theme = Theme.system →
      (updateResolvedTheme osDark st).resolvedTheme =
        (if osDark then Theme.dark else Theme.light)) := by
  refine ⟨fun h => ?_, fun h => ?_, fun h => ?_⟩ <;>
    simp [updateResolvedTheme, resolveTheme, h]

/-- Witness for C1 at concrete inputs, one per preference value. -/
theorem C1_witness :
    (updateResolvedTheme true ⟨Theme.light, Theme.light, false⟩).resolvedTheme = Theme.light ∧
    (updateResolvedTheme false ⟨Theme.dark, Theme.light, false⟩).resolvedTheme = Theme.dark ∧
    (updateResolvedTheme true ⟨Theme.system, Theme.light, false⟩).resolvedTheme =
      (if true then Theme.dark else Theme.light) :=
  ⟨(C1_resolve_correct ⟨Theme.light, Theme.light, false⟩ true).1 rfl,
   (C1_resolve_correct ⟨Theme.dark, Theme.light, false⟩ false).2.1 rfl,
   (C1_resolve_correct ⟨Theme.system, Theme.light, false⟩ true).2.2 rfl⟩

/-- Claim C2: with an explicit light or dark preference, an OS
color-scheme change notification is ignored completely: the state — the
resolved theme and the root dark marker included — is unchanged, with no
recomputation. -/
theorem C2_osChange_ignored (st : ProviderState) (b : Bool)
    (h : st.theme = Theme.light ∨ st.theme = Theme.dark) :
    step st (Event.osChange b) = st := by
  have hne : st.theme ≠ Theme.system := by
    rcases h with h | h <;> simp [h]
  simp [step, handleChange, hne]

/-- Witness for C2: explicit light preference, OS flips to dark, state
unchanged. -/
theorem C2_witness :
    step ⟨Theme.light, Theme.light, false⟩ (Event.osChange true) =
      ⟨Theme.light, Theme.light, false⟩ :=
  C2_osChange_ignored ⟨Theme.light, Theme.light, false⟩ true (Or.inl rfl)

/-- Claim C3 counterexample: with the storage backend unavailable,
initialization does not complete normally — the storage error propagates
out of the `useState` initializer (there is no try/catch in the source),
and likewise out of `setTheme`'s persist step. -/
theorem C3_counterexample :
    themeInit failingStorage = Except.error StorageError.unavailable ∧
    (setTheme (initState none) failingStorage Theme.dark).2 =
      Except.error StorageError.unavailable :=
  ⟨rfl, rfl⟩

/-- Claim C3 amended: the source does not catch storage errors, so on an
unavailable storage both initialization and the persist step of
`setTheme` propagate the error; `setTheme` does update the in-memory
preference before the failing write, so the in-memory value still
reflects the new preference. -/
theorem C3_storage_error_propagates (st : ProviderState) (stor : Storage) (p : Theme)
    (h : stor.failing = true) :
    themeInit stor = Except.error StorageError.unavailable ∧
    (setTheme st stor p).1.theme = p ∧
    (setTheme st stor p).2 = Except.error StorageError.unavailable := by
  refine ⟨?_, rfl, ?_⟩ <;> simp [themeInit, getItem, setTheme, setItem, h]

/-- Witness for the amended C3 at a concrete failing storage. -/
theorem C3_witness :
    themeInit failingStorage = Except.error StorageError.unavailable ∧
    (setTheme (initState none) failingStorage Theme.light).1.theme = Theme.light ∧
    (setTheme (initState none) failingStorage Theme.light).2 =
      Except.error StorageError.unavailable :=
  C3_storage_error_propagates (initState none) failingStorage Theme.light rfl

/-- Claim C4: initialization over any possible stored value — the
preference is the stored value when it is exactly one of the three valid
literals, and system when it is absent or anything else; an invalid value
is never fatal (the read still returns ok). -/
theorem C4_init_validation (v : Option String) :
    (∀ t : Theme, v = some (themeToString t) →
      themeInit (storageWith v) = Except.ok t) ∧
    ((∀ t : Theme, v ≠ some (themeToString t)) →
      themeInit (storageWith v) = Except.ok Theme.system) := by
  have hread : themeInit (storageWith v) = Except.ok (themeFromStored v) := by
    simp [themeInit, getItem, storageWith]
  constructor
  · intro t ht
    subst ht
    rw [hread]
    cases t <;> simp [themeFromStored, themeToString, lightStr, darkStr, systemStr]
  · intro hne
    rw [hread]
    cases v with
    | none => simp [themeFromStored]
    | some s =>
      have h1 : s ≠ lightStr := fun hc => hne Theme.light (by simp [themeToString, hc])
      have h2 : s ≠ darkStr := fun hc => hne Theme.dark (by simp [themeToString, hc])
      have h3 : s ≠ systemStr := fun hc => hne Theme.system (by simp [themeToString, hc])
      simp [themeFromStored, h1, h2, h3]

/-- Witness for C4: a valid stored value, an absent value, and a corrupt
value, all at concrete storages. -/
theorem C4_witness :
    themeInit (storageWith (some darkStr)) = Except.ok Theme.dark ∧
    themeInit (storageWith none) = Except.ok Theme.system ∧
    themeInit (storageWith (some garbageStr)) = Except.ok Theme.system :=
  ⟨(C4_init_validation (some darkStr)).1 Theme.dark rfl,
   (C4_init_validation none).2 (by intro t; cases t <;> simp [themeToString]),
   (C4_init_validation (some garbageStr)).2
     (by intro t; cases t <;> simp [themeToString, garbageStr, lightStr, darkStr, systemStr])⟩

/-- Claim C5: on a working storage, after `setTheme p` the in-memory
preference is `p` and reading back under the fixed key returns the
corresponding literal string. -/
theorem C5_set_persist_roundtrip (st : ProviderState) (stor : Storage) (p : Theme)
    (h : stor.failing = false) :
    (setTheme st stor p).1.theme = p ∧
    ∃ stor2, (setTheme st stor p).2 = Except.ok stor2 ∧
      getItem stor2 THEME_STORAGE_KEY = Except.ok (some (themeToString p)) := by
  refine ⟨rfl, ?_⟩
  refine ⟨{ stor with entries := fun k2 =>
    if k2 = THEME_STORAGE_KEY then some (themeToString p) else stor.entries k2 }, ?_, ?_⟩
  · simp [setTheme, setItem, h]
  · simp [getItem, h]

/-- Witness for C5 at a concrete storage and preference. -/
theorem C5_witness :
    (setTheme (initState none) emptyStorage Theme.dark).1.theme = Theme.dark ∧
    ∃ stor2, (setTheme (initState none) emptyStorage Theme.dark).2 = Except.ok stor2 ∧
      getItem stor2 THEME_STORAGE_KEY = Except.ok (some (themeToString Theme.dark)) :=
  C5_set_persist_roundtrip (initState none) emptyStorage Theme.dark rfl

/-- Claim C6: in every reachable provider state the resolved theme is
exactly one of light or dark, never system — no event (effect run,
preference change, OS notification) can make it system. -/
theorem C6_resolved_never_system (st : ProviderState) (h : Reachable st) :
    (st.resolvedTheme = Theme.light ∨ st.resolvedTheme = Theme.dark) ∧
    st.resolvedTheme ≠ Theme.system := by
  induction h with
  | init stored => exact ⟨Or.inl rfl, by simp [initState]⟩
  | next st e _ ih =>
    cases e with
    | effectRun b =>
      exact ⟨resolveTheme_light_or_dark st.theme b, resolveTheme_ne_system st.theme b⟩
    | setPref p b =>
      exact ⟨resolveTheme_light_or_dark p b, resolveTheme_ne_system p b⟩
    | osChange b =>
      by_cases hs : st.theme = Theme.system
      · simp only [step, handleChange, hs, if_pos]
        exact ⟨resolveTheme_light_or_dark st.theme b, resolveTheme_ne_system st.theme b⟩
      · simpa [step, handleChange, hs] using ih

/-- Witness for C6 at the initial state. -/
theorem C6_witness :
    ((initState none).resolvedTheme = Theme.light ∨
      (initState none).resolvedTheme = Theme.dark) ∧
    (initState none).resolvedTheme ≠ Theme.system :=
  C6_resolved_never_system (initState none) (Reachable.init none)

/-- Claim C8: resolution is idempotent — running `updateResolvedTheme`
twice with the same OS signal and no intervening state change leaves the
state exactly as after the first run. -/
theorem C8_resolve_idempotent (st : ProviderState) (osDark : Bool) :
    updateResolvedTheme osDark (updateResolvedTheme osDark st) =
      updateResolvedTheme osDark st := by
  cases st
  simp [updateResolvedTheme]

/-- Claim C9: immediately after construction, before the first effect
run, the exposed resolved theme is light whatever was stored and whatever
the OS signal (the initial state never consults it); in particular with a
stored dark preference a consumer can observe preference dark together
with resolved light. -/
theorem C9_initial_resolved_light (stored : Option String) :
    (initState stored).resolvedTheme = Theme.light ∧
    (initState (some darkStr)).theme = Theme.dark ∧
    (initState (some darkStr)).resolvedTheme = Theme.light :=
  ⟨rfl, by simp [initState, themeFromStored, lightStr, darkStr], rfl⟩

/-- Claim C10: `useTheme` throws (rather than returning a default) when
the context is undefined, and inside a provider returns exactly the
provider's published theme, resolved theme (and mutator). -/
theorem C10_useTheme_guard (ctx : Option ThemeContextType) :
    (ctx = none → useTheme ctx = Except.error useThemeErrorMsg) ∧
    (∀ st : ProviderState, ctx = some (contextValue st) →
      useTheme ctx = Except.ok { theme := st.theme, resolvedTheme := st.resolvedTheme }) := by
  constructor
  · intro h; subst h; rfl
  · intro st h; subst h; rfl

/-- Filtering a list by non-membership in itself leaves nothing. -/
theorem filter_not_mem_self (l : List Nat) :
    l.filter (fun x => decide (x ∉ l)) = [] := by
  rw [List.filter_eq_nil_iff]
  intro a ha
  simp [ha]

/-- The lifecycle invariant holds in every reachable player state. -/
theorem preach_inv (s : PlayerSystem) (h : PReach s) : PInv s := by
  induction h with
  | init =>
    exact ⟨by simp [initPlayer], by simp [initPlayer], by simp [initPlayer]⟩
  | next s e _ ih =>
    obtain ⟨hbound, hlive, hidle⟩ := ih
    cases e with
    | mount a =>
      show PInv (mountEffect a s)
      by_cases hc : a = true ∧ s.playerRef = none
      · rw [mountEffect, if_pos hc]
        obtain ⟨-, hnone⟩ := hc
        have hcd : s.constructed = s.destroyed := hidle hnone
        refine ⟨fun hdl hmem => Nat.lt_succ_of_lt (hbound hdl hmem), ?_, ?_⟩
        · intro hdl heq
          have hid : s.nextId = hdl := by simpa using heq
          subst hid
          exact ⟨by simp [hcd], fun hmem => absurd (hbound _ hmem) (Nat.lt_irrefl _),
            Nat.lt_succ_self _⟩
        · intro heq
          exact absurd heq (by simp)
      · rw [mountEffect, if_neg hc]
        exact ⟨hbound, hlive, hidle⟩
    | unmount =>
      show PInv (cleanup s)
      cases hp : s.playerRef with
      | none =>
        have hcl : cleanup s = s := by simp [cleanup, hp]
        rw [hcl]
        exact ⟨hbound, hlive, hidle⟩
      | some hdl =>
        have hcl : cleanup s =
            { s with destroyed := hdl :: s.destroyed, playerRef := none } := by
          simp [cleanup, hp]
        rw [hcl]
        obtain ⟨hcon, -, hlt⟩ := hlive hdl hp
        refine ⟨?_, ?_, ?_⟩
        · intro h2 hmem
          rcases List.mem_cons.mp hmem with h2e | h2m
          · exact h2e ▸ hlt
          · exact hbound h2 h2m
        · intro h2 heq
          exact absurd heq (by simp)
        · intro h2
          exact hcon

/-- Claim C7: in every reachable state of the host view, (i) mounting
while no instance is live constructs exactly one fresh handle, never a
previously destroyed one; (ii) a second construction attempt while an
instance is live is a no-op; (iii) unmounting destroys the live handle
and nulls the ref; (iv) the constructed-but-not-destroyed handles are
exactly the current ref — at most one live handle per container. -/
theorem C7_player_lifecycle (s : PlayerSystem) (hr : PReach s) :
    (s.playerRef = none → ∀ hdl, (mountEffect true s).playerRef = some hdl →
      (mountEffect true s).constructed = hdl :: s.constructed ∧ hdl ∉ s.destroyed) ∧
    (s.playerRef ≠ none → ∀ b, mountEffect b s = s) ∧
    (∀ hdl, s.playerRef = some hdl →
      (cleanup s).playerRef = none ∧ (cleanup s).destroyed = hdl :: s.destroyed) ∧
    (s.constructed.filter (fun hdl => decide (hdl ∉ s.destroyed)) =
      (match s.playerRef with | some hdl => [hdl] | none => [])) := by
  obtain ⟨hbound, hlive, hidle⟩ := preach_inv s hr
  refine ⟨?_, ?_, ?_, ?_⟩
  · intro hnone hdl hsome
    rw [mountEffect, if_pos ⟨rfl, hnone⟩] at hsome ⊢
    have hid : s.nextId = hdl := by simpa using hsome
    subst hid
    exact ⟨rfl, fun hmem => absurd (hbound _ hmem) (Nat.lt_irrefl _)⟩
  · intro hne b
    rw [mountEffect, if_neg fun hc => hne hc.2]
  · intro hdl hsome
    have hcl : cleanup s =
        { s with destroyed := hdl :: s.destroyed, playerRef := none } := by
      simp [cleanup, hsome]
    rw [hcl]
    exact ⟨rfl, rfl⟩
  · cases hp : s.playerRef with
    | some hdl =>
      obtain ⟨hcon, hnd, -⟩ := hlive hdl hp
      rw [hcon, List.filter_cons, if_pos (by simpa using hnd)]
      rw [filter_not_mem_self]
    | none =>
      rw [hidle hp, filter_not_mem_self]

/-- Witness for C7 at the reachable state reached by one mount. -/
theorem C7_witness :
    ((pstep initPlayer (PEvent.mount true)).playerRef = none →
      ∀ hdl, (mountEffect true (pstep initPlayer (PEvent.mount true))).playerRef = some hdl →
        (mountEffect true (pstep initPlayer (PEvent.mount true))).constructed =
          hdl :: (pstep initPlayer (PEvent.mount true)).constructed ∧
        hdl ∉ (pstep initPlayer (PEvent.mount true)).destroyed) ∧
    ((pstep initPlayer (PEvent.mount true)).playerRef ≠ none →
      ∀ b, mountEffect b (pstep initPlayer (PEvent.mount true)) =
        pstep initPlayer (PEvent.mount true)) ∧
    (∀ hdl, (pstep initPlayer (PEvent.mount true)).playerRef = some hdl →
      (cleanup (pstep initPlayer (PEvent.mount true))).playerRef = none ∧
      (cleanup (pstep initPlayer (PEvent.mount true))).destroyed =
        hdl :: (pstep initPlayer (PEvent.mount true)).destroyed) ∧
    ((pstep initPlayer (PEvent.mount true)).constructed.filter
        (fun hdl => decide (hdl ∉ (pstep initPlayer (PEvent.mount true)).destroyed)) =
      (match (pstep initPlayer (PEvent.mount true)).playerRef with
       | some hdl => [hdl] | none => [])) :=
  C7_player_lifecycle (pstep initPlayer (PEvent.mount true))
    (PReach.next initPlayer (PEvent.mount true) PReach.init)

/-- Witness for C10: outside any provider it throws; inside it returns
the provider's values. -/
theorem C10_witness :
    useTheme none = Except.error useThemeErrorMsg ∧
    useTheme (some (contextValue ⟨Theme.dark, Theme.dark, true⟩)) =
      Except.ok { theme := Theme.dark, resolvedTheme := Theme.dark } :=
  ⟨(C10_useTheme_guard none).1 rfl,
   (C10_useTheme_guard (some (contextValue ⟨Theme.dark, Theme.dark, true⟩))).2
     ⟨Theme.dark, Theme.dark, true⟩ rfl⟩

end LetRecovery
